import Mathlib

/-!
Shallow embedding of nestacean's cycle-stepped 6502 CPU (src/nes/cpu.rs).

Machine integers are modelled as `Nat`: `u8`/`u16` wrapping operations from
the source (`wrapping_add`, `wrapping_sub`, shifts on `u8`) are made explicit
with `% 256` / `% 65536`, while the source's plain `+` / `-` on `u16`
(which abort on overflow in checked builds) are modelled as partial
operations returning `Option`.  Every abort of the source
(`unimplemented!`, overflow, the "Unexpected micro-op" abort in
`push_micro_from_placeholder`, the `None` latch aborts in
`execute_micro_op`) is modelled as `none`.  The debug TTY is statically
disabled, so `tick` is `execute_current_cycle`.
-/

def FLAG_ZERO : Nat := 0x02
def FLAG_NEGATIVE : Nat := 0x80
def FLAG_CARRY : Nat := 0x01
def FLAG_OVERFLOW : Nat := 0x40
def FLAG_DECIMAL : Nat := 0x08
def FLAG_INTERRUPT : Nat := 0x04
def FLAG_BREAK : Nat := 0x10
def BIT_7 : Nat := 0x80
def STACK_PTR_TOP : Nat := 0xFF
def STACK_BOTTOM : Nat := 0x0100
def PROGRAM_START : Nat := 0x8000
def PC_INIT_LOCATION : Nat := 0xFFFC
def INTERRUPT_VEC_LOW : Nat := 0xFFFE
def INTERRUPT_VEC_HIGH : Nat := 0xFFFF

/-- Wrapping `u8` arithmetic (`wrapping_add` / `wrapping_sub` land here). -/
def wrap8 (n : Nat) : Nat := n % 256

/-- Wrapping `u16` arithmetic (`wrapping_add` on `u16`). -/
def wrap16 (n : Nat) : Nat := n % 65536

/-- Checked `u16` addition: the source's plain `+` on `u16`, which aborts on
overflow in checked builds. -/
def u16add (a b : Nat) : Option Nat :=
  if a + b ≤ 0xFFFF then some (a + b) else none

/-- Checked `u16` subtraction: the source's plain `-` on `u16`, which aborts
on underflow in checked builds. -/
def u16sub (a b : Nat) : Option Nat :=
  if b ≤ a then some (a - b) else none

/-- Functional update of the flat 64 KiB memory (`self.memory[pos] = byte`). -/
def memWrite (m : Nat → Nat) (addr v : Nat) : Nat → Nat :=
  fun x => if x = addr then v else m x

/-- The `MicroOp` enum of the source, one constructor per variant, in source
order.  `Option u16` payloads become `Option Nat`. -/
inductive MicroOp where
  | TakeBranch (offset : Nat)
  | ExclusiveOr
  | ExclusiveOrAddress
  | LogicalAnd
  | LogicalAndAddress
  | InclusiveOr
  | InclusiveOrAddress
  | BitTestAddress
  | AddWithCarry
  | AddWithCarryAddress
  | SubWithCarry
  | SubWithCarryAddress
  | Compare
  | CompareAddress
  | CompareX
  | CompareXAddress
  | CompareY
  | CompareYAddress
  | ArithmeticShiftLeft
  | ArithmeticShiftLeftAddress (value : Option Nat)
  | LogicalShiftRight
  | LogicalShiftRightAddress (value : Option Nat)
  | RotateLeft
  | RotateLeftAddress (value : Option Nat)
  | RotateRight
  | RotateRightAddress (value : Option Nat)
  | LoadAccPlaceholder
  | Break
  | ReadAccumulator
  | StoreAccumulator
  | StoreX
  | StoreY
  | LoadAccumulator
  | LoadAccumulatorFromAddress
  | LoadX
  | LoadXfromAddress
  | LoadY
  | LoadYfromAddress
  | FetchLowAddrByte
  | FetchHighAddrByte
  | FetchInterruptLow
  | FetchInterruptHigh
  | CopyLowFetchHightoPC
  | FetchHighAddrByteWithX
  | FetchHighAddrByteWithY
  | AddXtoZeroPageAddress
  | AddYtoZeroPageAddress
  | AddXLoadImmediatePlaceholder
  | AddXLoadImmediate (value : Nat)
  | AddYLoadImmediatePlaceholder
  | AddYLoadImmediate (value : Nat)
  | FetchZeroPage
  | FetchRelativeOffset (value : Nat) (cond : Nat)
  | LoadXAccumulator
  | LoadYAccumulator
  | LoadXStackPointer
  | LoadAccumulatorX
  | LoadStackPointerX
  | LoadAccumulatorY
  | PushAccumulator
  | PushStatusBrkPhp
  | PullAccumulator
  | PullStatus
  | PushPCH
  | PushPCL
  | PullPCL
  | PullPCHPlaceholder
  | PullPCH (pcl : Option Nat)
  | IncrementPCPlaceholder
  | IncrementPC (pc : Option Nat)
  | IncrementSP (value : Nat)
  | IncrementX
  | IncrementY
  | DecrementX
  | DecrementY
  | DummyCycle
  | FixAddressPlaceholder
  | FixAddress (value : Option Nat)
  | AddXtoPointer
  | FetchPointerHighBytePlaceholder
  | FetchPointerHighByteWithYPlaceholder
  | FetchPointerLowByte
  | FetchPointerHighByte (pointer : Option Nat)
  | FetchPointerHighByteWithY (pointer : Option Nat)
  | ReadHighFromIndirectPlaceholder
  | ReadHighFromIndirectLatch (latch : Option Nat)
  | ReadLowFromIndirect
  | ReadAddress
  | WriteBackAndIncrementPlaceholder
  | WriteBackAndIncrement (value : Option Nat)
  | WriteBackAndDecrementPlaceholder
  | WriteBackAndDecrement (value : Option Nat)
  | WriteToAddressPlaceholder
  | WriteToAddress (value : Option Nat)
  | SetCarry
  | ClearCarry
  | ClearDecimalMode
  | SetDecimalMode
  | ClearInterrupt
  | SetInterrupt
  | ClearOverflow

inductive AddressingMode where
  | ZeroPage
  | ZeroPageX
  | ZeroPageY
  | Absolute
  | AbsoluteX
  | AbsoluteY
  | IndexedIndirect
  | IndirectIndexed
deriving DecidableEq

inductive InstType where
  | Read
  | RMW
  | Write
deriving DecidableEq

/-- The `Cpu` struct.  `current_inst` is the micro-op `VecDeque` with the
list head as the deque front; `memory` is the flat 64 KiB array as a
function.  The debug fields are omitted (statically disabled). -/
structure Cpu where
  accumulator : Nat
  index_x : Nat
  index_y : Nat
  pc : Nat
  sp : Nat
  status_p : Nat
  current_inst : List MicroOp
  memory : Nat → Nat
  temp_addr : Nat
  page_crossed : Bool

/-- Memory read (`Cpu::mem_read`). -/
def mem_read (c : Cpu) (pos : Nat) : Nat := c.memory pos

/-- Memory write (`Cpu::mem_write`). -/
def mem_write (c : Cpu) (pos byte : Nat) : Cpu :=
  { c with memory := memWrite c.memory pos byte }

/-- Little-endian `u16` read (`Cpu::mem_read_u16`); `pos + 1` is a checked
`u16` addition. -/
def mem_read_u16 (c : Cpu) (pos : Nat) : Option Nat :=
  match u16add pos 1 with
  | none => none
  | some pos1 => some ((mem_read c pos1 <<< 8) ||| mem_read c pos)

/-- Little-endian `u16` write (`Cpu::mem_write_u16`). -/
def mem_write_u16 (c : Cpu) (pos bytes : Nat) : Option Cpu :=
  match u16add pos 1 with
  | none => none
  | some pos1 => some (mem_write (mem_write c pos (bytes % 256)) pos1 (bytes >>> 8))

/-- Z/N flag update (`Cpu::set_flags_zero_neg`).  `!FLAG` on `u8` is
`255 - FLAG` for a single-bit mask. -/
def set_flags_zero_neg (c : Cpu) (value : Nat) : Cpu :=
  let s1 := if value = 0 then c.status_p ||| FLAG_ZERO
            else c.status_p &&& (255 - FLAG_ZERO)
  let s2 := if value &&& BIT_7 ≠ 0 then s1 ||| FLAG_NEGATIVE
            else s1 &&& (255 - FLAG_NEGATIVE)
  { c with status_p := s2 }

/-- Compare helper (`Cpu::compare`): Z/N from `a.wrapping_sub(b)`, C iff
`a ≥ b`. -/
def Cpu.compare (c : Cpu) (a b : Nat) : Cpu :=
  let result := wrap8 (a + 256 - b % 256)
  let c := set_flags_zero_neg c result
  if a ≥ b then { c with status_p := c.status_p ||| FLAG_CARRY }
  else { c with status_p := c.status_p &&& (255 - FLAG_CARRY) }

/-- SBC helper (`Cpu::swc`).  The source computes
`self.accumulator as u16 - value as u16 - !carry_in` with plain checked
`u16` subtraction and a *bitwise* not of the 16-bit carry
(`!carry_in = 0xFFFF - carry_in`), so the second subtraction is by
`0xFFFE` or `0xFFFF`. -/
def swc (c : Cpu) (value : Nat) : Option Cpu :=
  let carry_in : Nat := if c.status_p &&& FLAG_CARRY ≠ 0 then 1 else 0
  match u16sub c.accumulator value with
  | none => none
  | some d =>
    match u16sub d (0xFFFF - carry_in) with
    | none => none
    | some sub =>
      let result := sub % 256
      let c := set_flags_zero_neg c result
      let c := if sub > 0xFF then { c with status_p := c.status_p &&& (255 - FLAG_CARRY) }
               else { c with status_p := c.status_p ||| FLAG_CARRY }
      let c := if ((c.accumulator ^^^ result) &&& (value ^^^ result) &&& 0x80) ≠ 0
               then { c with status_p := c.status_p ||| FLAG_OVERFLOW }
               else { c with status_p := c.status_p &&& (255 - FLAG_OVERFLOW) }
      some { c with accumulator := result }

/-- ADC helper (`Cpu::awc`).  `sum` fits in `u16` (at most `0x1FF`), the
`u8` cast of `sum` is `% 256`. -/
def awc (c : Cpu) (value : Nat) : Cpu :=
  let carry_in : Nat := if c.status_p &&& FLAG_CARRY ≠ 0 then 1 else 0
  let sum := c.accumulator + value + carry_in
  let result := sum % 256
  let c := if sum > 0xFF then { c with status_p := c.status_p ||| FLAG_CARRY }
           else { c with status_p := c.status_p &&& (255 - FLAG_CARRY) }
  let c := set_flags_zero_neg c result
  let c := if ((c.accumulator ^^^ result) &&& (value ^^^ result) &&& 0x80) ≠ 0
           then { c with status_p := c.status_p ||| FLAG_OVERFLOW }
           else { c with status_p := c.status_p &&& (255 - FLAG_OVERFLOW) }
  { c with accumulator := result }

/-- ASL helper (`Cpu::asl`): returns the updated CPU and the shifted value;
`value << 1` on `u8` truncates to 8 bits. -/
def asl (c : Cpu) (value : Nat) : Cpu × Nat :=
  let c := if value &&& FLAG_NEGATIVE ≠ 0 then { c with status_p := c.status_p ||| FLAG_CARRY }
           else { c with status_p := c.status_p &&& (255 - FLAG_CARRY) }
  let result := wrap8 (value <<< 1)
  (set_flags_zero_neg c result, result)

/-- LSR helper (`Cpu::lsr`). -/
def lsr (c : Cpu) (value : Nat) : Cpu × Nat :=
  let c := if value &&& FLAG_CARRY ≠ 0 then { c with status_p := c.status_p ||| FLAG_CARRY }
           else { c with status_p := c.status_p &&& (255 - FLAG_CARRY) }
  let result := value >>> 1
  (set_flags_zero_neg c result, result)

/-- ROL helper (`Cpu::rol`): the carry used for bit 0 is read *before* the
carry flag is rewritten from bit 7. -/
def rol (c : Cpu) (value : Nat) : Cpu × Nat :=
  let carry := c.status_p &&& FLAG_CARRY
  let result := wrap8 (value <<< 1) ||| carry
  let c := if value &&& FLAG_NEGATIVE ≠ 0 then { c with status_p := c.status_p ||| FLAG_CARRY }
           else { c with status_p := c.status_p &&& (255 - FLAG_CARRY) }
  (set_flags_zero_neg c result, result)

/-- ROR helper (`Cpu::ror`). -/
def ror (c : Cpu) (value : Nat) : Cpu × Nat :=
  let carry := c.status_p &&& FLAG_CARRY
  let result := (value >>> 1) ||| wrap8 (carry <<< 7)
  let c := if value &&& FLAG_CARRY ≠ 0 then { c with status_p := c.status_p ||| FLAG_CARRY }
           else { c with status_p := c.status_p &&& (255 - FLAG_CARRY) }
  (set_flags_zero_neg c result, result)

/-- Branch scheduling (`Cpu::schedule_branch`): appends `TakeBranch(offset)`
to the back of the queue when the sampled flag equals the condition. -/
def schedule_branch (c : Cpu) (value cond offset : Nat) : Cpu :=
  if value = cond then
    { c with current_inst := c.current_inst ++ [MicroOp.TakeBranch offset] }
  else c

/-- Addressing-mode/instruction-class micro-op skeletons
(`Cpu::dispatch_generic_instruction`). -/
def dispatch_generic_instruction (address_mode : AddressingMode) (inst : MicroOp)
    (inst_type : InstType) : List MicroOp :=
  match address_mode with
  | AddressingMode.ZeroPage =>
    match inst_type with
    | InstType.Read => [MicroOp.FetchZeroPage, inst]
    | InstType.RMW => [MicroOp.FetchZeroPage, MicroOp.ReadAddress, inst,
        MicroOp.WriteToAddressPlaceholder]
    | InstType.Write => [MicroOp.FetchZeroPage, inst]
  | AddressingMode.ZeroPageX =>
    match inst_type with
    | InstType.Read => [MicroOp.FetchZeroPage, MicroOp.AddXtoZeroPageAddress, inst]
    | InstType.RMW => [MicroOp.FetchZeroPage, MicroOp.AddXtoZeroPageAddress,
        MicroOp.ReadAddress, inst, MicroOp.WriteToAddressPlaceholder]
    | InstType.Write => [MicroOp.FetchZeroPage, MicroOp.AddXtoZeroPageAddress, inst]
  | AddressingMode.ZeroPageY =>
    match inst_type with
    | InstType.Read => [MicroOp.FetchZeroPage, MicroOp.AddYtoZeroPageAddress, inst]
    | InstType.RMW => [MicroOp.FetchZeroPage, MicroOp.AddYtoZeroPageAddress,
        MicroOp.ReadAddress, inst, MicroOp.WriteToAddressPlaceholder]
    | InstType.Write => [MicroOp.FetchZeroPage, MicroOp.AddYtoZeroPageAddress, inst]
  | AddressingMode.Absolute =>
    match inst_type with
    | InstType.Read => [MicroOp.FetchLowAddrByte, MicroOp.FetchHighAddrByte, inst]
    | InstType.RMW => [MicroOp.FetchLowAddrByte, MicroOp.FetchHighAddrByte,
        MicroOp.ReadAddress, inst, MicroOp.WriteToAddressPlaceholder]
    | InstType.Write => [MicroOp.FetchLowAddrByte, MicroOp.FetchHighAddrByte, inst]
  | AddressingMode.AbsoluteX =>
    match inst_type with
    | InstType.Read => [MicroOp.FetchLowAddrByte, MicroOp.FetchHighAddrByteWithX, inst]
    | InstType.RMW => [MicroOp.FetchLowAddrByte, MicroOp.FetchHighAddrByteWithX,
        MicroOp.DummyCycle, MicroOp.ReadAddress, inst, MicroOp.WriteToAddressPlaceholder]
    | InstType.Write => [MicroOp.FetchLowAddrByte, MicroOp.FetchHighAddrByteWithX,
        MicroOp.ReadAddress, inst]
  | AddressingMode.AbsoluteY =>
    match inst_type with
    | InstType.Read => [MicroOp.FetchLowAddrByte, MicroOp.FetchHighAddrByteWithY, inst]
    | InstType.RMW => [MicroOp.FetchLowAddrByte, MicroOp.FetchHighAddrByteWithY,
        MicroOp.DummyCycle, MicroOp.ReadAddress, inst, MicroOp.WriteToAddressPlaceholder]
    | InstType.Write => [MicroOp.FetchLowAddrByte, MicroOp.FetchHighAddrByteWithY,
        MicroOp.ReadAddress, inst]
  | AddressingMode.IndexedIndirect =>
    match inst_type with
    | InstType.Read => [MicroOp.FetchZeroPage, MicroOp.AddXtoPointer,
        MicroOp.FetchPointerLowByte, MicroOp.FetchPointerHighBytePlaceholder, inst]
    | InstType.RMW => [MicroOp.FetchZeroPage, MicroOp.AddXtoPointer,
        MicroOp.FetchPointerLowByte, MicroOp.FetchPointerHighBytePlaceholder,
        MicroOp.ReadAddress, inst, MicroOp.WriteToAddressPlaceholder]
    | InstType.Write => [MicroOp.FetchZeroPage, MicroOp.AddXtoPointer,
        MicroOp.FetchPointerLowByte, MicroOp.FetchPointerHighBytePlaceholder, inst]
  | AddressingMode.IndirectIndexed =>
    match inst_type with
    | InstType.Read => [MicroOp.FetchZeroPage, MicroOp.FetchPointerLowByte,
        MicroOp.FetchPointerHighByteWithYPlaceholder, inst]
    | InstType.RMW => [MicroOp.FetchZeroPage, MicroOp.FetchPointerLowByte,
        MicroOp.FetchPointerHighByteWithYPlaceholder, MicroOp.FixAddressPlaceholder,
        MicroOp.ReadAddress, inst, MicroOp.WriteToAddressPlaceholder]
    | InstType.Write => [MicroOp.FetchZeroPage, MicroOp.FetchPointerLowByte,
        MicroOp.FetchPointerHighByteWithYPlaceholder, MicroOp.ReadAddress, inst]

/-- Opcode decoder (`Cpu::decode_opcode`).  It reads only `self.status_p`
(for the branch flag samples) and `self.pc` (for the BRK return-address
latch, already past the opcode byte); the unknown-opcode arm is the fatal
`unimplemented!` abort, modelled as `none`. -/
def decode_opcode (status_p pc opcode : Nat) : Option (List MicroOp) :=
  match opcode with
  | 0xA9 => some [MicroOp.LoadAccumulator]
  | 0xA5 => some (dispatch_generic_instruction AddressingMode.ZeroPage
      MicroOp.LoadAccumulatorFromAddress InstType.Read)
  | 0xB5 => some (dispatch_generic_instruction AddressingMode.ZeroPageX
      MicroOp.LoadAccumulatorFromAddress InstType.Read)
  | 0xAD => some (dispatch_generic_instruction AddressingMode.Absolute
      MicroOp.LoadAccumulatorFromAddress InstType.Read)
  | 0xBD => some (dispatch_generic_instruction AddressingMode.AbsoluteX
      MicroOp.LoadAccumulatorFromAddress InstType.Read)
  | 0xB9 => some (dispatch_generic_instruction AddressingMode.AbsoluteY
      MicroOp.LoadAccumulatorFromAddress InstType.Read)
  | 0xA1 => some (dispatch_generic_instruction AddressingMode.IndexedIndirect
      MicroOp.LoadAccumulatorFromAddress InstType.Read)
  | 0xB1 => some (dispatch_generic_instruction AddressingMode.IndirectIndexed
      MicroOp.LoadAccumulatorFromAddress InstType.Read)
  | 0xA2 => some [MicroOp.LoadX]
  | 0xA6 => some (dispatch_generic_instruction AddressingMode.ZeroPage
      MicroOp.LoadXfromAddress InstType.Read)
  | 0xB6 => some (dispatch_generic_instruction AddressingMode.ZeroPageY
      MicroOp.LoadXfromAddress InstType.Read)
  | 0xAE => some (dispatch_generic_instruction AddressingMode.Absolute
      MicroOp.LoadXfromAddress InstType.Read)
  | 0xBE => some (dispatch_generic_instruction AddressingMode.AbsoluteY
      MicroOp.LoadXfromAddress InstType.Read)
  | 0xA0 => some [MicroOp.LoadY]
  | 0xA4 => some (dispatch_generic_instruction AddressingMode.ZeroPage
      MicroOp.LoadYfromAddress InstType.Read)
  | 0xB4 => some (dispatch_generic_instruction AddressingMode.ZeroPageY
      MicroOp.LoadYfromAddress InstType.Read)
  | 0xAC => some (dispatch_generic_instruction AddressingMode.Absolute
      MicroOp.LoadYfromAddress InstType.Read)
  | 0xBC => some (dispatch_generic_instruction AddressingMode.AbsoluteX
      MicroOp.LoadYfromAddress InstType.Read)
  | 0x85 => some (dispatch_generic_instruction AddressingMode.ZeroPage
      MicroOp.StoreAccumulator InstType.Write)
  | 0x95 => some (dispatch_generic_instruction AddressingMode.ZeroPageX
      MicroOp.StoreAccumulator InstType.Write)
  | 0x8D => some (dispatch_generic_instruction AddressingMode.Absolute
      MicroOp.StoreAccumulator InstType.Write)
  | 0x9D => some (dispatch_generic_instruction AddressingMode.AbsoluteX
      MicroOp.StoreAccumulator InstType.Write)
  | 0x99 => some (dispatch_generic_instruction AddressingMode.AbsoluteY
      MicroOp.StoreAccumulator InstType.Write)
  | 0x81 => some (dispatch_generic_instruction AddressingMode.IndexedIndirect
      MicroOp.StoreAccumulator InstType.Write)
  | 0x91 => some (dispatch_generic_instruction AddressingMode.IndirectIndexed
      MicroOp.StoreAccumulator InstType.Write)
  | 0x86 => some (dispatch_generic_instruction AddressingMode.ZeroPage
      MicroOp.StoreX InstType.Write)
  | 0x96 => some (dispatch_generic_instruction AddressingMode.ZeroPageY
      MicroOp.StoreX InstType.Write)
  | 0x8E => some (dispatch_generic_instruction AddressingMode.Absolute
      MicroOp.StoreX InstType.Write)
  | 0x84 => some (dispatch_generic_instruction AddressingMode.ZeroPage
      MicroOp.StoreY InstType.Write)
  | 0x94 => some (dispatch_generic_instruction AddressingMode.ZeroPageX
      MicroOp.StoreY InstType.Write)
  | 0x8C => some (dispatch_generic_instruction AddressingMode.Absolute
      MicroOp.StoreY InstType.Write)
  | 0xAA => some [MicroOp.LoadXAccumulator]
  | 0xA8 => some [MicroOp.LoadYAccumulator]
  | 0xBA => some [MicroOp.LoadXStackPointer]
  | 0x8A => some [MicroOp.LoadAccumulatorX]
  | 0x9A => some [MicroOp.LoadStackPointerX]
  | 0x98 => some [MicroOp.LoadAccumulatorY]
  | 0x48 => some [MicroOp.DummyCycle, MicroOp.PushAccumulator]
  | 0x08 => some [MicroOp.DummyCycle, MicroOp.PushStatusBrkPhp]
  | 0x68 => some [MicroOp.DummyCycle, MicroOp.IncrementSP 1, MicroOp.PullAccumulator]
  | 0x28 => some [MicroOp.DummyCycle, MicroOp.IncrementSP 1, MicroOp.PullStatus]
  | 0x29 => some [MicroOp.LogicalAnd]
  | 0x25 => some (dispatch_generic_instruction AddressingMode.ZeroPage
      MicroOp.LogicalAndAddress InstType.Read)
  | 0x35 => some (dispatch_generic_instruction AddressingMode.ZeroPageX
      MicroOp.LogicalAndAddress InstType.Read)
  | 0x2D => some (dispatch_generic_instruction AddressingMode.Absolute
      MicroOp.LogicalAndAddress InstType.Read)
  | 0x3D => some (dispatch_generic_instruction AddressingMode.AbsoluteX
      MicroOp.LogicalAndAddress InstType.Read)
  | 0x39 => some (dispatch_generic_instruction AddressingMode.AbsoluteY
      MicroOp.LogicalAndAddress InstType.Read)
  | 0x21 => some (dispatch_generic_instruction AddressingMode.IndexedIndirect
      MicroOp.LogicalAndAddress InstType.Read)
  | 0x31 => some (dispatch_generic_instruction AddressingMode.IndirectIndexed
      MicroOp.LogicalAndAddress InstType.Read)
  | 0x49 => some [MicroOp.ExclusiveOr]
  | 0x45 => some (dispatch_generic_instruction AddressingMode.ZeroPage
      MicroOp.ExclusiveOrAddress InstType.Read)
  | 0x55 => some (dispatch_generic_instruction AddressingMode.ZeroPageX
      MicroOp.ExclusiveOrAddress InstType.Read)
  | 0x4D => some (dispatch_generic_instruction AddressingMode.Absolute
      MicroOp.ExclusiveOrAddress InstType.Read)
  | 0x5D => some (dispatch_generic_instruction AddressingMode.AbsoluteX
      MicroOp.ExclusiveOrAddress InstType.Read)
  | 0x59 => some (dispatch_generic_instruction AddressingMode.AbsoluteY
      MicroOp.ExclusiveOrAddress InstType.Read)
  | 0x41 => some (dispatch_generic_instruction AddressingMode.IndexedIndirect
      MicroOp.ExclusiveOrAddress InstType.Read)
  | 0x51 => some (dispatch_generic_instruction AddressingMode.IndirectIndexed
      MicroOp.ExclusiveOrAddress InstType.Read)
  | 0x09 => some [MicroOp.InclusiveOr]
  | 0x05 => some (dispatch_generic_instruction AddressingMode.ZeroPage
      MicroOp.InclusiveOrAddress InstType.Read)
  | 0x15 => some (dispatch_generic_instruction AddressingMode.ZeroPageX
      MicroOp.InclusiveOrAddress InstType.Read)
  | 0x0D => some (dispatch_generic_instruction AddressingMode.Absolute
      MicroOp.InclusiveOrAddress InstType.Read)
  | 0x1D => some (dispatch_generic_instruction AddressingMode.AbsoluteX
      MicroOp.InclusiveOrAddress InstType.Read)
  | 0x19 => some (dispatch_generic_instruction AddressingMode.AbsoluteY
      MicroOp.InclusiveOrAddress InstType.Read)
  | 0x01 => some (dispatch_generic_instruction AddressingMode.IndexedIndirect
      MicroOp.InclusiveOrAddress InstType.Read)
  | 0x11 => some (dispatch_generic_instruction AddressingMode.IndirectIndexed
      MicroOp.InclusiveOrAddress InstType.Read)
  | 0x24 => some (dispatch_generic_instruction AddressingMode.ZeroPage
      MicroOp.BitTestAddress InstType.Read)
  | 0x2C => some (dispatch_generic_instruction AddressingMode.Absolute
      MicroOp.BitTestAddress InstType.Read)
  | 0x69 => some [MicroOp.AddWithCarry]
  | 0x65 => some (dispatch_generic_instruction AddressingMode.ZeroPage
      MicroOp.AddWithCarryAddress InstType.Read)
  | 0x75 => some (dispatch_generic_instruction AddressingMode.ZeroPageX
      MicroOp.AddWithCarryAddress InstType.Read)
  | 0x6D => some (dispatch_generic_instruction AddressingMode.Absolute
      MicroOp.AddWithCarryAddress InstType.Read)
  | 0x7D => some (dispatch_generic_instruction AddressingMode.AbsoluteX
      MicroOp.AddWithCarryAddress InstType.Read)
  | 0x79 => some (dispatch_generic_instruction AddressingMode.AbsoluteY
      MicroOp.AddWithCarryAddress InstType.Read)
  | 0x61 => some (dispatch_generic_instruction AddressingMode.IndexedIndirect
      MicroOp.AddWithCarryAddress InstType.Read)
  | 0x71 => some (dispatch_generic_instruction AddressingMode.IndirectIndexed
      MicroOp.AddWithCarryAddress InstType.Read)
  | 0xE9 => some [MicroOp.SubWithCarry]
  | 0xE5 => some (dispatch_generic_instruction AddressingMode.ZeroPage
      MicroOp.SubWithCarryAddress InstType.Read)
  | 0xF5 => some (dispatch_generic_instruction AddressingMode.ZeroPageX
      MicroOp.SubWithCarryAddress InstType.Read)
  | 0xED => some (dispatch_generic_instruction AddressingMode.Absolute
      MicroOp.SubWithCarryAddress InstType.Read)
  | 0xFD => some (dispatch_generic_instruction AddressingMode.AbsoluteX
      MicroOp.SubWithCarryAddress InstType.Read)
  | 0xF9 => some (dispatch_generic_instruction AddressingMode.AbsoluteY
      MicroOp.SubWithCarryAddress InstType.Read)
  | 0xE1 => some (dispatch_generic_instruction AddressingMode.IndexedIndirect
      MicroOp.SubWithCarryAddress InstType.Read)
  | 0xF1 => some (dispatch_generic_instruction AddressingMode.IndirectIndexed
      MicroOp.SubWithCarryAddress InstType.Read)
  | 0xC9 => some [MicroOp.Compare]
  | 0xC5 => some (dispatch_generic_instruction AddressingMode.ZeroPage
      MicroOp.Compare InstType.Read)
  | 0xD5 => some (dispatch_generic_instruction AddressingMode.ZeroPageX
      MicroOp.Compare InstType.Read)
  | 0xCD => some (dispatch_generic_instruction AddressingMode.Absolute
      MicroOp.Compare InstType.Read)
  | 0xDD => some (dispatch_generic_instruction AddressingMode.AbsoluteX
      MicroOp.Compare InstType.Read)
  | 0xD9 => some (dispatch_generic_instruction AddressingMode.AbsoluteY
      MicroOp.Compare InstType.Read)
  | 0xC1 => some (dispatch_generic_instruction AddressingMode.IndexedIndirect
      MicroOp.Compare InstType.Read)
  | 0xD1 => some (dispatch_generic_instruction AddressingMode.IndirectIndexed
      MicroOp.Compare InstType.Read)
  | 0xE0 => some [MicroOp.CompareX]
  | 0xE4 => some (dispatch_generic_instruction AddressingMode.ZeroPage
      MicroOp.CompareXAddress InstType.Read)
  | 0xEC => some (dispatch_generic_instruction AddressingMode.Absolute
      MicroOp.CompareXAddress InstType.Read)
  | 0xC0 => some [MicroOp.CompareY]
  | 0xC4 => some (dispatch_generic_instruction AddressingMode.ZeroPage
      MicroOp.CompareYAddress InstType.Read)
  | 0xCC => some (dispatch_generic_instruction AddressingMode.Absolute
      MicroOp.CompareYAddress InstType.Read)
  | 0x0A => some [MicroOp.ArithmeticShiftLeft]
  | 0x06 => some (dispatch_generic_instruction AddressingMode.ZeroPage
      (MicroOp.ArithmeticShiftLeftAddress none) InstType.RMW)
  | 0x16 => some (dispatch_generic_instruction AddressingMode.ZeroPageX
      (MicroOp.ArithmeticShiftLeftAddress none) InstType.RMW)
  | 0x0E => some (dispatch_generic_instruction AddressingMode.Absolute
      (MicroOp.ArithmeticShiftLeftAddress none) InstType.RMW)
  | 0x1E => some (dispatch_generic_instruction AddressingMode.AbsoluteX
      (MicroOp.ArithmeticShiftLeftAddress none) InstType.RMW)
  | 0x4A => some [MicroOp.LogicalShiftRight]
  | 0x46 => some (dispatch_generic_instruction AddressingMode.ZeroPage
      (MicroOp.LogicalShiftRightAddress none) InstType.RMW)
  | 0x56 => some (dispatch_generic_instruction AddressingMode.ZeroPageX
      (MicroOp.LogicalShiftRightAddress none) InstType.RMW)
  | 0x4E => some (dispatch_generic_instruction AddressingMode.Absolute
      (MicroOp.LogicalShiftRightAddress none) InstType.RMW)
  | 0x5E => some (dispatch_generic_instruction AddressingMode.AbsoluteX
      (MicroOp.LogicalShiftRightAddress none) InstType.RMW)
  | 0x2A => some [MicroOp.RotateLeft]
  | 0x26 => some (dispatch_generic_instruction AddressingMode.ZeroPage
      (MicroOp.RotateLeftAddress none) InstType.RMW)
  | 0x36 => some (dispatch_generic_instruction AddressingMode.ZeroPageX
      (MicroOp.RotateLeftAddress none) InstType.RMW)
  | 0x2E => some (dispatch_generic_instruction AddressingMode.Absolute
      (MicroOp.RotateLeftAddress none) InstType.RMW)
  | 0x3E => some (dispatch_generic_instruction AddressingMode.AbsoluteX
      (MicroOp.RotateLeftAddress none) InstType.RMW)
  | 0x6A => some [MicroOp.RotateRight]
  | 0x66 => some (dispatch_generic_instruction AddressingMode.ZeroPage
      (MicroOp.RotateRightAddress none) InstType.RMW)
  | 0x76 => some (dispatch_generic_instruction AddressingMode.ZeroPageX
      (MicroOp.RotateRightAddress none) InstType.RMW)
  | 0x6E => some (dispatch_generic_instruction AddressingMode.Absolute
      (MicroOp.RotateRightAddress none) InstType.RMW)
  | 0x7E => some (dispatch_generic_instruction AddressingMode.AbsoluteX
      (MicroOp.RotateRightAddress none) InstType.RMW)
  | 0xE6 => some (dispatch_generic_instruction AddressingMode.ZeroPage
      MicroOp.WriteBackAndIncrementPlaceholder InstType.RMW)
  | 0xF6 => some (dispatch_generic_instruction AddressingMode.ZeroPageX
      MicroOp.WriteBackAndIncrementPlaceholder InstType.RMW)
  | 0xEE => some (dispatch_generic_instruction AddressingMode.Absolute
      MicroOp.WriteBackAndIncrementPlaceholder InstType.RMW)
  | 0xFE => some (dispatch_generic_instruction AddressingMode.AbsoluteX
      MicroOp.WriteBackAndIncrementPlaceholder InstType.RMW)
  | 0xE8 => some [MicroOp.IncrementX]
  | 0xCA => some [MicroOp.DecrementX]
  | 0xC8 => some [MicroOp.IncrementY]
  | 0x88 => some [MicroOp.DecrementY]
  | 0xC6 => some (dispatch_generic_instruction AddressingMode.ZeroPage
      MicroOp.WriteBackAndDecrementPlaceholder InstType.RMW)
  | 0xD6 => some (dispatch_generic_instruction AddressingMode.ZeroPageX
      MicroOp.WriteBackAndDecrementPlaceholder InstType.RMW)
  | 0xCE => some (dispatch_generic_instruction AddressingMode.Absolute
      MicroOp.WriteBackAndDecrementPlaceholder InstType.RMW)
  | 0xDE => some (dispatch_generic_instruction AddressingMode.AbsoluteX
      MicroOp.WriteBackAndDecrementPlaceholder InstType.RMW)
  | 0x4C => some [MicroOp.FetchLowAddrByte, MicroOp.CopyLowFetchHightoPC]
  | 0x6C => some [MicroOp.FetchLowAddrByte, MicroOp.FetchHighAddrByte,
      MicroOp.ReadLowFromIndirect, MicroOp.ReadHighFromIndirectPlaceholder]
  | 0x20 => some [MicroOp.FetchLowAddrByte, MicroOp.DummyCycle, MicroOp.PushPCH,
      MicroOp.PushPCL, MicroOp.CopyLowFetchHightoPC]
  | 0x60 => some [MicroOp.DummyCycle, MicroOp.IncrementSP 1, MicroOp.PullPCL,
      MicroOp.PullPCHPlaceholder, MicroOp.IncrementPCPlaceholder]
  | 0x90 => some [MicroOp.FetchRelativeOffset (status_p &&& FLAG_CARRY) 0x00]
  | 0xB0 => some [MicroOp.FetchRelativeOffset (status_p &&& FLAG_CARRY) FLAG_CARRY]
  | 0xF0 => some [MicroOp.FetchRelativeOffset (status_p &&& FLAG_ZERO) FLAG_ZERO]
  | 0xD0 => some [MicroOp.FetchRelativeOffset (status_p &&& FLAG_ZERO) 0x00]
  | 0x30 => some [MicroOp.FetchRelativeOffset (status_p &&& FLAG_NEGATIVE) FLAG_NEGATIVE]
  | 0x10 => some [MicroOp.FetchRelativeOffset (status_p &&& FLAG_NEGATIVE) 0x00]
  | 0x50 => some [MicroOp.FetchRelativeOffset (status_p &&& FLAG_OVERFLOW) 0x00]
  | 0x70 => some [MicroOp.FetchRelativeOffset (status_p &&& FLAG_OVERFLOW) FLAG_OVERFLOW]
  | 0x18 => some [MicroOp.ClearCarry]
  | 0x38 => some [MicroOp.SetCarry]
  | 0xD8 => some [MicroOp.ClearDecimalMode]
  | 0xF8 => some [MicroOp.SetDecimalMode]
  | 0x78 => some [MicroOp.SetInterrupt]
  | 0x58 => some [MicroOp.ClearInterrupt]
  | 0xB8 => some [MicroOp.ClearOverflow]
  | 0xEA => some [MicroOp.DummyCycle]
  | 0x00 => some [MicroOp.IncrementPC (some pc), MicroOp.PushPCH, MicroOp.PushPCL,
      MicroOp.PushStatusBrkPhp, MicroOp.FetchInterruptLow, MicroOp.FetchInterruptHigh]
  | 0x40 => some [MicroOp.DummyCycle, MicroOp.IncrementSP 1, MicroOp.PullStatus,
      MicroOp.PullPCL, MicroOp.PullPCHPlaceholder]
  | _ => none

/-- Queue-front placeholder substitution (`Cpu::push_micro_from_placeholder`).
Pops the queue front; placeholder variants are replaced by their
value-carrying forms, the listed pass-through variants are pushed back
(with a page-cross `DummyCycle` prepended for the indexed-read
instructions), an empty queue returns unchanged, and any other front
micro-op is the "Unexpected micro-op" abort (`none`). -/
def push_micro_from_placeholder (c : Cpu) (value : Option Nat) : Option Cpu :=
  match c.current_inst with
  | [] => some c
  | MicroOp.WriteToAddressPlaceholder :: rest =>
    some { c with current_inst := MicroOp.WriteToAddress value :: rest }
  | MicroOp.WriteBackAndIncrementPlaceholder :: rest =>
    some { c with current_inst := MicroOp.WriteBackAndIncrement value :: rest }
  | MicroOp.WriteBackAndDecrementPlaceholder :: rest =>
    some { c with current_inst := MicroOp.WriteBackAndDecrement value :: rest }
  | MicroOp.ReadHighFromIndirectPlaceholder :: rest =>
    some { c with current_inst := MicroOp.ReadHighFromIndirectLatch value :: rest }
  | MicroOp.LoadAccumulatorFromAddress :: rest =>
    if c.page_crossed then
      some { c with
        page_crossed := false,
        current_inst := MicroOp.DummyCycle :: MicroOp.LoadAccumulatorFromAddress :: rest }
    else some { c with current_inst := MicroOp.LoadAccumulatorFromAddress :: rest }
  | MicroOp.LogicalAndAddress :: rest =>
    if c.page_crossed then
      some { c with
        page_crossed := false,
        current_inst := MicroOp.DummyCycle :: MicroOp.LogicalAndAddress :: rest }
    else some { c with current_inst := MicroOp.LogicalAndAddress :: rest }
  | MicroOp.ExclusiveOrAddress :: rest =>
    if c.page_crossed then
      some { c with
        page_crossed := false,
        current_inst := MicroOp.DummyCycle :: MicroOp.ExclusiveOrAddress :: rest }
    else some { c with current_inst := MicroOp.ExclusiveOrAddress :: rest }
  | MicroOp.InclusiveOrAddress :: rest =>
    if c.page_crossed then
      some { c with
        page_crossed := false,
        current_inst := MicroOp.DummyCycle :: MicroOp.InclusiveOrAddress :: rest }
    else some { c with current_inst := MicroOp.InclusiveOrAddress :: rest }
  | MicroOp.AddWithCarryAddress :: rest =>
    if c.page_crossed then
      some { c with
        page_crossed := false,
        current_inst := MicroOp.DummyCycle :: MicroOp.AddWithCarryAddress :: rest }
    else some { c with current_inst := MicroOp.AddWithCarryAddress :: rest }
  | MicroOp.SubWithCarryAddress :: rest =>
    if c.page_crossed then
      some { c with
        page_crossed := false,
        current_inst := MicroOp.DummyCycle :: MicroOp.SubWithCarryAddress :: rest }
    else some { c with current_inst := MicroOp.SubWithCarryAddress :: rest }
  | MicroOp.CompareAddress :: rest =>
    if c.page_crossed then
      some { c with
        page_crossed := false,
        current_inst := MicroOp.DummyCycle :: MicroOp.CompareAddress :: rest }
    else some { c with current_inst := MicroOp.CompareAddress :: rest }
  | MicroOp.CompareXAddress :: rest =>
    if c.page_crossed then
      some { c with
        page_crossed := false,
        current_inst := MicroOp.DummyCycle :: MicroOp.CompareXAddress :: rest }
    else some { c with current_inst := MicroOp.CompareXAddress :: rest }
  | MicroOp.CompareYAddress :: rest =>
    if c.page_crossed then
      some { c with
        page_crossed := false,
        current_inst := MicroOp.DummyCycle :: MicroOp.CompareYAddress :: rest }
    else some { c with current_inst := MicroOp.CompareYAddress :: rest }
  | MicroOp.ArithmeticShiftLeftAddress none :: rest =>
    some { c with current_inst := MicroOp.ArithmeticShiftLeftAddress value :: rest }
  | MicroOp.LogicalShiftRightAddress none :: rest =>
    some { c with current_inst := MicroOp.LogicalShiftRightAddress value :: rest }
  | MicroOp.RotateLeftAddress none :: rest =>
    some { c with current_inst := MicroOp.RotateLeftAddress value :: rest }
  | MicroOp.RotateRightAddress none :: rest =>
    some { c with current_inst := MicroOp.RotateRightAddress value :: rest }
  | MicroOp.LoadXfromAddress :: rest =>
    if c.page_crossed then
      some { c with
        page_crossed := false,
        current_inst := MicroOp.DummyCycle :: MicroOp.LoadXfromAddress :: rest }
    else some { c with current_inst := MicroOp.LoadXfromAddress :: rest }
  | MicroOp.LoadYfromAddress :: rest =>
    if c.page_crossed then
      some { c with
        page_crossed := false,
        current_inst := MicroOp.DummyCycle :: MicroOp.LoadYfromAddress :: rest }
    else some { c with current_inst := MicroOp.LoadYfromAddress :: rest }
  | MicroOp.FetchPointerHighBytePlaceholder :: rest =>
    some { c with current_inst := MicroOp.FetchPointerHighByte value :: rest }
  | MicroOp.FetchPointerHighByteWithYPlaceholder :: rest =>
    some { c with current_inst := MicroOp.FetchPointerHighByteWithY value :: rest }
  | MicroOp.FixAddressPlaceholder :: rest =>
    some { c with current_inst := MicroOp.FixAddress value :: rest }
  | MicroOp.PullPCHPlaceholder :: rest =>
    some { c with current_inst := MicroOp.PullPCH value :: rest }
  | MicroOp.IncrementPCPlaceholder :: rest =>
    some { c with current_inst := MicroOp.IncrementPC value :: rest }
  | MicroOp.DummyCycle :: rest =>
    some { c with current_inst := MicroOp.DummyCycle :: rest }
  | MicroOp.ReadAddress :: rest =>
    some { c with current_inst := MicroOp.ReadAddress :: rest }
  | _ :: _ => none

/-- Single micro-op execution (`Cpu::execute_micro_op`).  The final
catch-all arm is the source's `unimplemented!` abort; the `None`-latch
arms of the value-carrying micro-ops abort likewise. -/
def execute_micro_op (c : Cpu) (operation : MicroOp) : Option Cpu :=
  match operation with
  | MicroOp.ReadAddress =>
    push_micro_from_placeholder c (some (mem_read c c.temp_addr))
  | MicroOp.FetchZeroPage =>
    match u16add c.pc 1 with
    | none => none
    | some pc1 => some { c with temp_addr := c.memory c.pc, pc := pc1 }
  | MicroOp.AddXtoZeroPageAddress =>
    some { c with temp_addr := wrap8 (wrap8 c.temp_addr + c.index_x) }
  | MicroOp.AddYtoZeroPageAddress =>
    some { c with temp_addr := wrap8 (wrap8 c.temp_addr + c.index_y) }
  | MicroOp.AddXtoPointer =>
    some { c with temp_addr := wrap8 (wrap8 c.temp_addr + c.index_x) }
  | MicroOp.FetchLowAddrByte =>
    match u16add c.pc 1 with
    | none => none
    | some pc1 => some { c with temp_addr := mem_read c c.pc, pc := pc1 }
  | MicroOp.FetchHighAddrByte =>
    match u16add c.pc 1 with
    | none => none
    | some pc1 => some { c with
        temp_addr := c.temp_addr ||| (mem_read c c.pc <<< 8),
        pc := pc1 }
  | MicroOp.FetchInterruptLow =>
    some { c with pc := mem_read c INTERRUPT_VEC_LOW }
  | MicroOp.FetchInterruptHigh =>
    some { c with pc := c.pc ||| (mem_read c INTERRUPT_VEC_HIGH <<< 8) }
  | MicroOp.CopyLowFetchHightoPC =>
    match u16add c.pc 1 with
    | none => none
    | some _ => some { c with pc := (mem_read c c.pc <<< 8) ||| c.temp_addr }
  | MicroOp.ReadLowFromIndirect =>
    push_micro_from_placeholder c (some (mem_read c c.temp_addr))
  | MicroOp.ReadHighFromIndirectLatch latch =>
    match latch with
    | some latch =>
      match (if latch = 0xFF then some (c.temp_addr &&& 0xFF00) else u16add c.temp_addr 1) with
      | none => none
      | some high_addr => some { c with pc := (mem_read c high_addr <<< 8) ||| latch }
    | none => none
  | MicroOp.FetchHighAddrByteWithX =>
    match u16add c.pc 1 with
    | none => none
    | some pc1 =>
      let temp := c.temp_addr ||| (mem_read c c.pc <<< 8)
      let new_addr := wrap16 (temp + c.index_x)
      push_micro_from_placeholder
        { c with
          pc := pc1,
          temp_addr := new_addr,
          page_crossed := decide ((temp &&& 0xFF00) ≠ (new_addr &&& 0xFF00)) } none
  | MicroOp.FetchHighAddrByteWithY =>
    match u16add c.pc 1 with
    | none => none
    | some pc1 =>
      let temp := c.temp_addr ||| (mem_read c c.pc <<< 8)
      let new_addr := wrap16 (temp + c.index_y)
      push_micro_from_placeholder
        { c with
          pc := pc1,
          temp_addr := new_addr,
          page_crossed := decide ((temp &&& 0xFF00) ≠ (new_addr &&& 0xFF00)) } none
  | MicroOp.FetchPointerLowByte =>
    let pointer := c.temp_addr
    push_micro_from_placeholder
      { c with temp_addr := mem_read c pointer } (some pointer)
  | MicroOp.FetchPointerHighByte pointer =>
    match pointer with
    | some pointer =>
      some { c with temp_addr := c.temp_addr ||| (mem_read c (wrap16 (pointer + 1)) <<< 8) }
    | none => none
  | MicroOp.FetchPointerHighByteWithY pointer =>
    match pointer with
    | some pointer =>
      let temp := c.temp_addr ||| (mem_read c (wrap16 (pointer + 1)) <<< 8)
      let new_addr := wrap16 (temp + c.index_y)
      push_micro_from_placeholder
        { c with
          temp_addr := new_addr,
          page_crossed := decide ((temp &&& 0xFF00) ≠ (new_addr &&& 0xFF00)) } none
    | none => none
  | MicroOp.FetchRelativeOffset value cond =>
    match u16add c.pc 1 with
    | none => none
    | some pc1 =>
      let offset := mem_read c c.pc
      some (schedule_branch { c with pc := pc1 } value cond offset)
  | MicroOp.TakeBranch offset =>
    let new_addr := wrap16 (c.pc + offset)
    let crossed := decide ((c.pc &&& 0xFF00) ≠ (new_addr &&& 0xFF00))
    if crossed then
      some { c with
        page_crossed := false,
        current_inst := MicroOp.DummyCycle :: c.current_inst, pc := new_addr }
    else
      some { c with page_crossed := crossed, pc := new_addr }
  | MicroOp.LoadAccumulator =>
    match u16add c.pc 1 with
    | none => none
    | some pc1 =>
      let value := c.memory c.pc
      some (set_flags_zero_neg { c with pc := pc1, accumulator := value } value)
  | MicroOp.LoadAccumulatorFromAddress =>
    let value := c.memory c.temp_addr
    some (set_flags_zero_neg { c with accumulator := value } value)
  | MicroOp.LoadX =>
    match u16add c.pc 1 with
    | none => none
    | some pc1 =>
      let value := c.memory c.pc
      some (set_flags_zero_neg { c with pc := pc1, index_x := value } value)
  | MicroOp.LoadXfromAddress =>
    let value := c.memory c.temp_addr
    some (set_flags_zero_neg { c with index_x := value } value)
  | MicroOp.LoadY =>
    match u16add c.pc 1 with
    | none => none
    | some pc1 =>
      let value := c.memory c.pc
      some (set_flags_zero_neg { c with pc := pc1, index_y := value } value)
  | MicroOp.LoadYfromAddress =>
    let value := c.memory c.temp_addr
    some (set_flags_zero_neg { c with index_y := value } value)
  | MicroOp.LoadXAccumulator =>
    some (set_flags_zero_neg { c with index_x := c.accumulator } c.accumulator)
  | MicroOp.LoadYAccumulator =>
    some (set_flags_zero_neg { c with index_y := c.accumulator } c.accumulator)
  | MicroOp.LoadXStackPointer =>
    some (set_flags_zero_neg { c with index_x := c.sp } c.sp)
  | MicroOp.LoadAccumulatorX =>
    some (set_flags_zero_neg { c with accumulator := c.index_x } c.index_x)
  | MicroOp.LoadAccumulatorY =>
    some (set_flags_zero_neg { c with accumulator := c.index_y } c.index_y)
  | MicroOp.LoadStackPointerX =>
    some { c with sp := c.index_x }
  | MicroOp.PushAccumulator =>
    some { (mem_write c (STACK_BOTTOM + c.sp) c.accumulator) with sp := wrap8 (c.sp + 255) }
  | MicroOp.PushStatusBrkPhp =>
    some { (mem_write c (STACK_BOTTOM + c.sp) (c.status_p ||| FLAG_BREAK)) with
      sp := wrap8 (c.sp + 255) }
  | MicroOp.PushPCH =>
    some { (mem_write c (STACK_BOTTOM + c.sp) (wrap8 (c.pc >>> 8))) with
      sp := wrap8 (c.sp + 255) }
  | MicroOp.PushPCL =>
    some { (mem_write c (STACK_BOTTOM + c.sp) (wrap8 c.pc)) with sp := wrap8 (c.sp + 255) }
  | MicroOp.PullPCL =>
    let pcl := mem_read c (STACK_BOTTOM + c.sp)
    push_micro_from_placeholder { c with sp := wrap8 (c.sp + 1) } (some pcl)
  | MicroOp.PullPCH pcl =>
    match pcl with
    | some pcl =>
      let pch := mem_read c (STACK_BOTTOM + c.sp) <<< 8
      push_micro_from_placeholder c (some (pch ||| pcl))
    | none => none
  | MicroOp.IncrementPC pc =>
    match pc with
    | some pc => some { c with pc := wrap16 (pc + 1) }
    | none => none
  | MicroOp.IncrementSP value =>
    some { c with sp := wrap8 (c.sp + value) }
  | MicroOp.PullAccumulator =>
    let value := mem_read c (STACK_BOTTOM + c.sp)
    some (set_flags_zero_neg { c with accumulator := value } value)
  | MicroOp.PullStatus =>
    some { c with status_p := mem_read c (STACK_BOTTOM + c.sp) }
  | MicroOp.IncrementX =>
    some (set_flags_zero_neg { c with index_x := wrap8 (c.index_x + 1) }
      (wrap8 (c.index_x + 1)))
  | MicroOp.DecrementX =>
    some (set_flags_zero_neg { c with index_x := wrap8 (c.index_x + 255) }
      (wrap8 (c.index_x + 255)))
  | MicroOp.IncrementY =>
    some (set_flags_zero_neg { c with index_y := wrap8 (c.index_y + 1) }
      (wrap8 (c.index_y + 1)))
  | MicroOp.DecrementY =>
    some (set_flags_zero_neg { c with index_y := wrap8 (c.index_y + 255) }
      (wrap8 (c.index_y + 255)))
  | MicroOp.WriteBackAndIncrement value =>
    match value with
    | some to_write =>
      let value := wrap8 to_write
      push_micro_from_placeholder (mem_write c c.temp_addr value) (some (wrap8 (value + 1)))
    | none => none
  | MicroOp.WriteBackAndDecrement value =>
    match value with
    | some to_write =>
      let value := wrap8 to_write
      push_micro_from_placeholder (mem_write c c.temp_addr value) (some (wrap8 (value + 255)))
    | none => none
  | MicroOp.WriteToAddress value =>
    match value with
    | some to_write =>
      let value := wrap8 to_write
      some (set_flags_zero_neg (mem_write c c.temp_addr value) value)
    | none => none
  | MicroOp.StoreAccumulator =>
    some (mem_write c c.temp_addr c.accumulator)
  | MicroOp.StoreX =>
    some (mem_write c c.temp_addr c.index_x)
  | MicroOp.StoreY =>
    some (mem_write c c.temp_addr c.index_y)
  | MicroOp.LogicalAnd =>
    match u16add c.pc 1 with
    | none => none
    | some pc1 =>
      let acc := c.accumulator &&& mem_read c c.pc
      some (set_flags_zero_neg { c with pc := pc1, accumulator := acc } acc)
  | MicroOp.LogicalAndAddress =>
    let acc := c.accumulator &&& mem_read c c.temp_addr
    some (set_flags_zero_neg { c with accumulator := acc } acc)
  | MicroOp.ExclusiveOr =>
    match u16add c.pc 1 with
    | none => none
    | some pc1 =>
      let acc := c.accumulator ^^^ mem_read c c.pc
      some (set_flags_zero_neg { c with pc := pc1, accumulator := acc } acc)
  | MicroOp.ExclusiveOrAddress =>
    let acc := c.accumulator ^^^ mem_read c c.temp_addr
    some (set_flags_zero_neg { c with accumulator := acc } acc)
  | MicroOp.InclusiveOr =>
    match u16add c.pc 1 with
    | none => none
    | some pc1 =>
      let acc := c.accumulator ||| mem_read c c.pc
      some (set_flags_zero_neg { c with pc := pc1, accumulator := acc } acc)
  | MicroOp.InclusiveOrAddress =>
    let acc := c.accumulator ||| mem_read c c.temp_addr
    some (set_flags_zero_neg { c with accumulator := acc } acc)
  | MicroOp.BitTestAddress =>
    let value := mem_read c c.temp_addr
    let temp := value &&& c.accumulator
    let s1 := if temp = 0 then c.status_p ||| FLAG_ZERO else c.status_p &&& (255 - FLAG_ZERO)
    let s2 := (s1 &&& (255 - 0xC0)) ||| (value &&& 0xC0)
    some { c with status_p := s2 }
  | MicroOp.AddWithCarry =>
    match u16add c.pc 1 with
    | none => none
    | some pc1 => some (awc { c with pc := pc1 } (mem_read c c.pc))
  | MicroOp.AddWithCarryAddress =>
    some (awc c (mem_read c c.temp_addr))
  | MicroOp.SubWithCarry =>
    match u16add c.pc 1 with
    | none => none
    | some pc1 => swc { c with pc := pc1 } (mem_read c c.pc)
  | MicroOp.SubWithCarryAddress =>
    swc c (mem_read c c.temp_addr)
  | MicroOp.Compare =>
    match u16add c.pc 1 with
    | none => none
    | some pc1 => some (Cpu.compare { c with pc := pc1 } c.accumulator (mem_read c c.pc))
  | MicroOp.CompareAddress =>
    some (Cpu.compare c c.accumulator (mem_read c c.temp_addr))
  | MicroOp.CompareX =>
    match u16add c.pc 1 with
    | none => none
    | some pc1 => some (Cpu.compare { c with pc := pc1 } c.index_x (mem_read c c.pc))
  | MicroOp.CompareXAddress =>
    some (Cpu.compare c c.index_x (mem_read c c.temp_addr))
  | MicroOp.CompareY =>
    match u16add c.pc 1 with
    | none => none
    | some pc1 => some (Cpu.compare { c with pc := pc1 } c.index_y (mem_read c c.pc))
  | MicroOp.CompareYAddress =>
    some (Cpu.compare c c.index_y (mem_read c c.temp_addr))
  | MicroOp.ArithmeticShiftLeft =>
    let r := asl c c.accumulator
    some { r.1 with accumulator := r.2 }
  | MicroOp.ArithmeticShiftLeftAddress value =>
    match value with
    | some to_shift =>
      let r := asl c (wrap8 to_shift)
      some (mem_write r.1 c.temp_addr r.2)
    | none => none
  | MicroOp.LogicalShiftRight =>
    let r := lsr c c.accumulator
    some { r.1 with accumulator := r.2 }
  | MicroOp.LogicalShiftRightAddress value =>
    match value with
    | some to_shift =>
      let r := lsr c (wrap8 to_shift)
      some (mem_write r.1 c.temp_addr r.2)
    | none => none
  | MicroOp.RotateLeft =>
    let r := rol c c.accumulator
    some { r.1 with accumulator := r.2 }
  | MicroOp.RotateLeftAddress value =>
    match value with
    | some to_rotate =>
      let r := rol c (wrap8 to_rotate)
      some (mem_write r.1 c.temp_addr r.2)
    | none => none
  | MicroOp.RotateRight =>
    let r := ror c c.accumulator
    some { r.1 with accumulator := r.2 }
  | MicroOp.RotateRightAddress value =>
    match value with
    | some to_rotate =>
      let r := ror c (wrap8 to_rotate)
      some (mem_write r.1 c.temp_addr r.2)
    | none => none
  | MicroOp.ClearCarry => some { c with status_p := c.status_p &&& (255 - FLAG_CARRY) }
  | MicroOp.SetCarry => some { c with status_p := c.status_p ||| FLAG_CARRY }
  | MicroOp.ClearDecimalMode => some { c with status_p := c.status_p &&& (255 - FLAG_DECIMAL) }
  | MicroOp.SetDecimalMode => some { c with status_p := c.status_p ||| FLAG_DECIMAL }
  | MicroOp.ClearInterrupt => some { c with status_p := c.status_p &&& (255 - FLAG_INTERRUPT) }
  | MicroOp.SetInterrupt => some { c with status_p := c.status_p ||| FLAG_INTERRUPT }
  | MicroOp.ClearOverflow => some { c with status_p := c.status_p &&& (255 - FLAG_OVERFLOW) }
  | MicroOp.DummyCycle => some c
  | MicroOp.FixAddress passthrough => push_micro_from_placeholder c passthrough
  | _ => none

/-- One clock cycle (`Cpu::execute_current_cycle`): on an empty queue, fetch
the opcode at PC (checked PC increment) and decode; otherwise pop the front
micro-op and execute it. -/
def execute_current_cycle (c : Cpu) : Option Cpu :=
  match c.current_inst with
  | [] =>
    let opcode := c.memory c.pc
    match u16add c.pc 1 with
    | none => none
    | some pc1 =>
      match decode_opcode c.status_p pc1 opcode with
      | none => none
      | some seq => some { c with pc := pc1, current_inst := seq }
  | op :: rest => execute_micro_op { c with current_inst := rest } op

/-- One `tick()` with the debug TTY disabled. -/
def tick (c : Cpu) : Option Cpu := execute_current_cycle c

/-- Repeated ticking; `none` once any cycle aborts. -/
def runTicks : Nat → Cpu → Option Cpu
  | 0, c => some c
  | n + 1, c =>
    match execute_current_cycle c with
    | none => none
    | some c1 => runTicks n c1

/-- CPU construction (`Cpu::new`): zeroed registers and memory. -/
def cpu_new : Cpu :=
  { accumulator := 0, index_x := 0, index_y := 0, pc := 0, sp := 0, status_p := 0,
    current_inst := [], memory := fun _ => 0, temp_addr := 0, page_crossed := false }

/-- Reset (`Cpu::reset`): zero registers and latches, SP to `$FF`, empty the
queue, reload PC from the reset vector. -/
def reset (c : Cpu) : Option Cpu :=
  match mem_read_u16 c PC_INIT_LOCATION with
  | none => none
  | some pc0 =>
    some { c with
      accumulator := 0, index_x := 0, index_y := 0, sp := STACK_PTR_TOP,
      status_p := 0, temp_addr := 0, page_crossed := false, current_inst := [],
      pc := pc0 }

/-- Program load (`Cpu::load_program`): copy the bytes to `$8000..`, then
write `$8000` to the reset vector.  A program longer than `0x8000` bytes
overruns the 64 KiB array and aborts. -/
def load_program (c : Cpu) (program : List Nat) : Option Cpu :=
  if program.length ≤ 0x8000 then
    let loaded := { c with
      memory := fun a =>
        if PROGRAM_START ≤ a ∧ a < PROGRAM_START + program.length
        then program.getD (a - PROGRAM_START) 0 else c.memory a }
    mem_write_u16 loaded PC_INIT_LOCATION PROGRAM_START
  else none

/-- Test-harness initial state, mirroring the integration tests:
`load_program`, `reset`, direct memory pokes, then the register setters
(`set_index_x`, `set_index_y`, `set_accumulator`, `set_status_p`, `set_sp`). -/
def mkState (prog : List Nat) (writes : List (Nat × Nat)) (x y a p sp : Nat) : Option Cpu :=
  match load_program cpu_new prog with
  | none => none
  | some c =>
    match reset c with
    | none => none
    | some c =>
      let c := writes.foldl (fun c w => mem_write c w.1 w.2) c
      some { c with
        index_x := x, index_y := y, accumulator := a, status_p := p, sp := sp }

/-- Two-opcode program at `$8000` with symbolic registers, for the stack
round-trip theorems. -/
def stackProg (op1 op2 : Nat) (a sp p : Nat) : Cpu :=
  { accumulator := a, index_x := 0, index_y := 0, pc := 0x8000, sp := sp, status_p := p,
    current_inst := [],
    memory := fun x => if x = 0x8000 then op1 else if x = 0x8001 then op2 else 0,
    temp_addr := 0, page_crossed := false }

/-- C1: the claim that every implemented opcode/addressing-mode combination
runs to completion fails on the code.  STA absolute,X (`9D 00 30`, X = 0)
aborts on its fourth cycle: `ReadAddress` hands the read value to
`push_micro_from_placeholder`, which finds `StoreAccumulator` at the queue
front and hits the "Unexpected micro-op" abort.  ASL zero page
(`06 10`) aborts on its fifth cycle: the `WriteToAddressPlaceholder` left
in the queue reaches `execute_micro_op`, whose catch-all arm is
`unimplemented!`.  Both programs reach the abort; both run fine up to the
cycle before. -/
theorem c1_sta_absolute_x_and_asl_memory_abort :
    ((mkState [0x9D, 0x00, 0x30] [] 0 0 0x42 0 0xFF).bind (runTicks 4)) = none
    ∧ ((mkState [0x9D, 0x00, 0x30] [] 0 0 0x42 0 0xFF).bind (runTicks 3)).isSome = true
    ∧ ((mkState [0x06, 0x10] [(0x10, 0x01)] 0 0 0 0 0xFF).bind (runTicks 5)) = none
    ∧ ((mkState [0x06, 0x10] [(0x10, 0x01)] 0 0 0 0 0xFF).bind (runTicks 4)).isSome = true :=
  ⟨rfl, rfl, rfl, rfl⟩

/-- C2: the branch offset is zero-extended, not sign-extended.  Program
`D0 FE` (BNE with offset `0xFE`) at `$8000` with Z clear: after the taken
branch executes, PC is `$8002 + 0x00FE = $8100`, not the sign-extended
`$8002 - 2 = $8000`; the queue still holds the (wrongly triggered)
page-cross penalty cycle. -/
theorem c2_branch_offset_zero_extended :
    ((mkState [0xD0, 0xFE] [] 0 0 0 0 0xFF).bind (runTicks 3)).map
      (fun c => (c.pc, c.current_inst.length)) = some (0x8100, 1)
    ∧ (0x8100 : Nat) ≠ 0x8000 :=
  ⟨rfl, by decide⟩

/-- C3: SBC aborts for every input.  `swc` computes
`A as u16 - M as u16 - !carry_in` where `!carry_in` is a bitwise not on
`u16` (`0xFFFE` or `0xFFFF`), so the checked subtraction always
underflows: program `E9 03` with A = 5 and C = 1 aborts on its second
cycle.  ADC is fine: `69 03` with A = 5, C = 1 yields A = 9 with carry
clear. -/
theorem c3_sbc_aborts_adc_works :
    ((mkState [0xE9, 0x03] [] 0 0 5 1 0xFF).bind (runTicks 2)) = none
    ∧ ((mkState [0x69, 0x03] [] 0 0 5 1 0xFF).bind (runTicks 2)).map
        (fun c => (c.accumulator, c.status_p &&& FLAG_CARRY)) = some (9, 0) :=
  ⟨rfl, rfl⟩

/-- C4: the indirect-JMP page-wrap decision is keyed on the *data* byte
fetched from the pointer, not on the pointer's low address byte.  For
`JMP ($30FF)` with `mem[$30FF] = 0x12`, `mem[$3100] = 0x34`,
`mem[$3000] = 0x56`: the pointer's low byte is `0xFF`, so the claim says
the high byte comes from `$3000`, giving PC = `$5612`; the code instead
tests the fetched `0x12` against `0xFF`, reads the high byte from
`$3100 = pointer + 1`, and lands at PC = `$3412`. -/
theorem c4_indirect_jmp_tests_data_byte :
    ((mkState [0x6C, 0xFF, 0x30] [(0x30FF, 0x12), (0x3100, 0x34), (0x3000, 0x56)]
        0 0 0 0 0xFF).bind (runTicks 5)).map Cpu.pc = some 0x3412
    ∧ (0x3412 : Nat) ≠ 0x5612 :=
  ⟨rfl, by decide⟩

/-- C5: opcode `0xB4` (LDY zero page,X) is dispatched with the ZeroPageY
skeleton and therefore adds Y, not X.  Program `B4 10` with X = 4, Y = 0,
`mem[$10] = 0x07`, `mem[$14] = 0x99` loads Y from `$10` (value `0x07`)
instead of from `$14` (value `0x99`). -/
theorem c5_ldy_zero_page_x_adds_y :
    ((mkState [0xB4, 0x10] [(0x10, 0x07), (0x14, 0x99)] 4 0 0 0 0xFF).bind
      (runTicks 4)).map Cpu.index_y = some 0x07
    ∧ (0x07 : Nat) ≠ 0x99 :=
  ⟨rfl, by decide⟩

/-- C6 (counterexample): PHP;PLP does not restore P.  Program `08 28` at
`$8000` with P = 0: PHP pushes `P | FLAG_BREAK = 0x10`, PLP pulls it back,
so the round trip leaves P = `0x10 ≠ 0`. -/
theorem c6_php_plp_roundtrip_forces_b_flag :
    ((mkState [0x08, 0x28] [] 0 0 0 0 0xFF).bind (runTicks 7)).map
      (fun c => (c.status_p, c.sp)) = some (0x10, 0xFF)
    ∧ (0x10 : Nat) ≠ 0 :=
  ⟨rfl, by decide⟩

/-- C7: LDA absolute,X with a page cross (`BD FF 30 00` at `$8000`, X = 1,
`mem[$3100] = 0x55`, started via reset) takes exactly 5 cycles: after 5
ticks the accumulator holds `0x55` and the queue is empty, while after 4
ticks the load micro-op is still pending and A is still 0. -/
theorem c7_lda_absolute_x_page_cross_five_cycles :
    ((mkState [0xBD, 0xFF, 0x30, 0x00] [(0x3100, 0x55)] 1 0 0 0 0xFF).bind
      (runTicks 5)).map (fun c => (c.accumulator, c.current_inst.length)) = some (0x55, 0)
    ∧ ((mkState [0xBD, 0xFF, 0x30, 0x00] [(0x3100, 0x55)] 1 0 0 0 0xFF).bind
      (runTicks 4)).map (fun c => (c.accumulator, c.current_inst.length)) = some (0, 1) :=
  ⟨rfl, rfl⟩


/-- Unfolding lemma: a cycle on an empty queue is fetch-and-decode. -/
theorem ecc_nil (c : Cpu) (hq : c.current_inst = []) :
    execute_current_cycle c =
      match u16add c.pc 1 with
      | none => none
      | some pc1 =>
        match decode_opcode c.status_p pc1 (c.memory c.pc) with
        | none => none
        | some seq => some { c with pc := pc1, current_inst := seq } := by
  unfold execute_current_cycle
  rw [hq]

/-- Unfolding lemma: a cycle on a non-empty queue pops and executes. -/
theorem ecc_cons (c : Cpu) (op : MicroOp) (rest : List MicroOp)
    (hq : c.current_inst = op :: rest) :
    execute_current_cycle c = execute_micro_op { c with current_inst := rest } op := by
  unfold execute_current_cycle
  rw [hq]

/-- Unfolding lemma for the `FetchZeroPage` micro-op. -/
theorem exec_FetchZeroPage (c : Cpu) :
    execute_micro_op c MicroOp.FetchZeroPage =
      match u16add c.pc 1 with
      | none => none
      | some pc1 => some { c with temp_addr := c.memory c.pc, pc := pc1 } := rfl

/-- Unfolding lemma for the `FetchLowAddrByte` micro-op. -/
theorem exec_FetchLowAddrByte (c : Cpu) :
    execute_micro_op c MicroOp.FetchLowAddrByte =
      match u16add c.pc 1 with
      | none => none
      | some pc1 => some { c with temp_addr := mem_read c c.pc, pc := pc1 } := rfl

/-- C10: opcode and operand fetches advance PC with the checked (non-
wrapping) increment.  On an empty queue a fetch-decode cycle at
PC = `0xFFFF` aborts (the `pc += 1` overflows) instead of wrapping to 0,
and any successful fetch-decode cycle sets PC to PC + 1; the operand-fetch
micro-ops `FetchZeroPage` and `FetchLowAddrByte` behave the same way. -/
theorem c10_fetch_increments_pc_without_wrap (c : Cpu) (hq : c.current_inst = []) :
    (c.pc = 0xFFFF → execute_current_cycle c = none)
    ∧ (∀ c', execute_current_cycle c = some c' → c'.pc = c.pc + 1)
    ∧ (c.pc = 0xFFFF → execute_micro_op c MicroOp.FetchZeroPage = none
        ∧ execute_micro_op c MicroOp.FetchLowAddrByte = none)
    ∧ (∀ c', execute_micro_op c MicroOp.FetchZeroPage = some c' → c'.pc = c.pc + 1)
    ∧ (∀ c', execute_micro_op c MicroOp.FetchLowAddrByte = some c' → c'.pc = c.pc + 1) := by
  refine ⟨?_, ?_, ?_, ?_, ?_⟩
  · intro hpc
    rw [ecc_nil c hq, hpc]
    rfl
  · intro c' h
    rw [ecc_nil c hq] at h
    by_cases hle : c.pc + 1 ≤ 65535
    · simp only [u16add, if_pos hle] at h
      split at h
      · exact absurd h (by simp)
      · rw [Option.some.injEq] at h
        rw [← h]
    · simp only [u16add, if_neg hle] at h
      exact absurd h (by simp)
  · intro hpc
    refine ⟨?_, ?_⟩
    · rw [exec_FetchZeroPage, hpc]
      rfl
    · rw [exec_FetchLowAddrByte, hpc]
      rfl
  · intro c' h
    rw [exec_FetchZeroPage] at h
    by_cases hle : c.pc + 1 ≤ 65535
    · simp only [u16add, if_pos hle] at h
      rw [Option.some.injEq] at h
      rw [← h]
    · simp only [u16add, if_neg hle] at h
      exact absurd h (by simp)
  · intro c' h
    rw [exec_FetchLowAddrByte] at h
    by_cases hle : c.pc + 1 ≤ 65535
    · simp only [u16add, if_pos hle] at h
      rw [Option.some.injEq] at h
      rw [← h]
    · simp only [u16add, if_neg hle] at h
      exact absurd h (by simp)

/-- C10 witness: a concrete CPU with an empty queue and PC = `0xFFFF`
aborts the fetch cycle and the `FetchZeroPage` micro-op. -/
theorem c10_witness :
    execute_current_cycle { cpu_new with pc := 0xFFFF } = none
    ∧ execute_micro_op { cpu_new with pc := 0xFFFF } MicroOp.FetchZeroPage = none :=
  ⟨(c10_fetch_increments_pc_without_wrap { cpu_new with pc := 0xFFFF } rfl).1 rfl,
   ((c10_fetch_increments_pc_without_wrap { cpu_new with pc := 0xFFFF } rfl).2.2.1 rfl).1⟩

/-- C9: `load_program` frame effect.  For a program of at most `0x8000`
bytes, the load succeeds; afterwards memory holds `0x00` at `$FFFC` and
`0x80` at `$FFFD` (the little-endian reset vector `$8000`, written after
the copy), `p[i]` at every other address `$8000+i` with `i < len`, and the
old byte everywhere else; all registers and latches are untouched. -/
theorem c9_load_program_frame (c : Cpu) (p : List Nat) (h : p.length ≤ 0x8000) :
    ∃ c', load_program c p = some c'
      ∧ (∀ a, c'.memory a =
          if a = 0xFFFC then 0x00
          else if a = 0xFFFD then 0x80
          else if 0x8000 ≤ a ∧ a < 0x8000 + p.length then p.getD (a - 0x8000) 0
          else c.memory a)
      ∧ c'.accumulator = c.accumulator ∧ c'.index_x = c.index_x
      ∧ c'.index_y = c.index_y ∧ c'.pc = c.pc ∧ c'.sp = c.sp
      ∧ c'.status_p = c.status_p ∧ c'.current_inst = c.current_inst
      ∧ c'.temp_addr = c.temp_addr ∧ c'.page_crossed = c.page_crossed := by
  refine ⟨{ c with memory := memWrite (memWrite
      (fun a => if 0x8000 ≤ a ∧ a < 0x8000 + p.length then p.getD (a - 0x8000) 0
                else c.memory a) 0xFFFC 0x00) 0xFFFD 0x80 },
    ?_, ?_, rfl, rfl, rfl, rfl, rfl, rfl, rfl, rfl, rfl⟩
  · unfold load_program
    rw [if_pos h]
    rfl
  · intro a
    show memWrite (memWrite _ 0xFFFC 0x00) 0xFFFD 0x80 a = _
    unfold memWrite
    by_cases h1 : a = 0xFFFC
    · subst h1
      norm_num
    · by_cases h2 : a = 0xFFFD
      · subst h2
        norm_num
      · simp only [h1, h2, if_false]

/-- C9 witness: loading a concrete 2-byte program into a fresh CPU places
the bytes at `$8000`, sets the reset vector, and leaves PC alone. -/
theorem c9_load_program_frame_witness :
    ∃ c', load_program cpu_new [0xA9, 0x05] = some c'
      ∧ c'.memory 0x8000 = 0xA9 ∧ c'.memory 0x8001 = 0x05
      ∧ c'.memory 0xFFFC = 0x00 ∧ c'.memory 0xFFFD = 0x80
      ∧ c'.memory 0x1234 = 0x00 ∧ c'.pc = cpu_new.pc := by
  obtain ⟨c', hload, hmem, _, _, _, hpc, _⟩ :=
    c9_load_program_frame cpu_new [0xA9, 0x05] (by norm_num)
  refine ⟨c', hload, ?_, ?_, ?_, ?_, ?_, hpc⟩ <;> rw [hmem] <;> rfl

/-- Peeling one successful cycle off a bounded run. -/
theorem runTicks_succ_of (n : Nat) (c c1 : Cpu) (h : execute_current_cycle c = some c1) :
    runTicks (n + 1) c = runTicks n c1 := by
  simp only [runTicks, h]

/-- Splitting a bounded run. -/
theorem runTicks_add (m n : Nat) (c : Cpu) :
    runTicks (m + n) c = (runTicks m c).bind (runTicks n) := by
  induction m generalizing c with
  | zero =>
    rw [Nat.zero_add]
    rfl
  | succ k ih =>
    rw [Nat.add_right_comm k 1 n]
    simp only [runTicks]
    cases h : execute_current_cycle c with
    | none => simp [h]
    | some c1 =>
      simp only [h]
      exact ih c1

/-- One full PHA instruction (3 cycles) from an instruction boundary. -/
theorem pha_run (c : Cpu) (hq : c.current_inst = []) (hop : c.memory c.pc = 0x48)
    (hpc : c.pc + 1 ≤ 0xFFFF) :
    runTicks 3 c = some { c with
      pc := c.pc + 1,
      memory := memWrite c.memory (STACK_BOTTOM + c.sp) c.accumulator,
      sp := wrap8 (c.sp + 255),
      current_inst := [] } := by
  have e1 : execute_current_cycle c = some { c with
      pc := c.pc + 1,
      current_inst := [MicroOp.DummyCycle, MicroOp.PushAccumulator] } := by
    rw [ecc_nil c hq, hop, show u16add c.pc 1 = some (c.pc + 1) from by
      unfold u16add; rw [if_pos hpc]]
    rfl
  exact (runTicks_succ_of 2 c _ e1).trans rfl

/-- One full PLA instruction (4 cycles) from an instruction boundary. -/
theorem pla_run (c : Cpu) (hq : c.current_inst = []) (hop : c.memory c.pc = 0x68)
    (hpc : c.pc + 1 ≤ 0xFFFF) :
    runTicks 4 c = some (set_flags_zero_neg { c with
      pc := c.pc + 1,
      sp := wrap8 (c.sp + 1),
      accumulator := c.memory (STACK_BOTTOM + wrap8 (c.sp + 1)),
      current_inst := [] } (c.memory (STACK_BOTTOM + wrap8 (c.sp + 1)))) := by
  have e1 : execute_current_cycle c = some { c with
      pc := c.pc + 1,
      current_inst := [MicroOp.DummyCycle, MicroOp.IncrementSP 1, MicroOp.PullAccumulator] } := by
    rw [ecc_nil c hq, hop, show u16add c.pc 1 = some (c.pc + 1) from by
      unfold u16add; rw [if_pos hpc]]
    rfl
  exact (runTicks_succ_of 3 c _ e1).trans rfl

/-- One full PHP instruction (3 cycles) from an instruction boundary. -/
theorem php_run (c : Cpu) (hq : c.current_inst = []) (hop : c.memory c.pc = 0x08)
    (hpc : c.pc + 1 ≤ 0xFFFF) :
    runTicks 3 c = some { c with
      pc := c.pc + 1,
      memory := memWrite c.memory (STACK_BOTTOM + c.sp) (c.status_p ||| FLAG_BREAK),
      sp := wrap8 (c.sp + 255),
      current_inst := [] } := by
  have e1 : execute_current_cycle c = some { c with
      pc := c.pc + 1,
      current_inst := [MicroOp.DummyCycle, MicroOp.PushStatusBrkPhp] } := by
    rw [ecc_nil c hq, hop, show u16add c.pc 1 = some (c.pc + 1) from by
      unfold u16add; rw [if_pos hpc]]
    rfl
  exact (runTicks_succ_of 2 c _ e1).trans rfl

/-- One full PLP instruction (4 cycles) from an instruction boundary. -/
theorem plp_run (c : Cpu) (hq : c.current_inst = []) (hop : c.memory c.pc = 0x28)
    (hpc : c.pc + 1 ≤ 0xFFFF) :
    runTicks 4 c = some { c with
      pc := c.pc + 1,
      sp := wrap8 (c.sp + 1),
      status_p := c.memory (STACK_BOTTOM + wrap8 (c.sp + 1)),
      current_inst := [] } := by
  have e1 : execute_current_cycle c = some { c with
      pc := c.pc + 1,
      current_inst := [MicroOp.DummyCycle, MicroOp.IncrementSP 1, MicroOp.PullStatus] } := by
    rw [ecc_nil c hq, hop, show u16add c.pc 1 = some (c.pc + 1) from by
      unfold u16add; rw [if_pos hpc]]
    rfl
  exact (runTicks_succ_of 3 c _ e1).trans rfl

set_option maxHeartbeats 1600000 in
/-- PHA;PLA round trip from a generic instruction boundary: A and SP are
restored (the push slot is read back after the SP round trip). -/
theorem pha_pla_roundtrip (c : Cpu) (hq : c.current_inst = []) (hsp : c.sp < 256)
    (hop1 : c.memory c.pc = 0x48) (hop2 : c.memory (c.pc + 1) = 0x68)
    (hpc : c.pc + 2 ≤ 0xFFFF) (hdisj : c.pc + 1 ≠ STACK_BOTTOM + c.sp) :
    ∃ c', runTicks 7 c = some c' ∧ c'.accumulator = c.accumulator ∧ c'.sp = c.sp := by
  have hw : wrap8 (wrap8 (c.sp + 255) + 1) = c.sp := by
    unfold wrap8
    omega
  have h1 : runTicks 3 c = some { c with
      pc := c.pc + 1,
      memory := memWrite c.memory (STACK_BOTTOM + c.sp) c.accumulator,
      sp := wrap8 (c.sp + 255),
      current_inst := [] } := pha_run c hq hop1 (by omega)
  have h2 := pla_run { c with
      pc := c.pc + 1,
      memory := memWrite c.memory (STACK_BOTTOM + c.sp) c.accumulator,
      sp := wrap8 (c.sp + 255),
      current_inst := ([] : List MicroOp) } rfl
    (by
      show memWrite c.memory (STACK_BOTTOM + c.sp) c.accumulator (c.pc + 1) = 0x68
      unfold memWrite
      rw [if_neg hdisj]
      exact hop2)
    (by show c.pc + 1 + 1 ≤ 65535; omega)
  have hsplit : runTicks 7 c = (runTicks 3 c).bind (runTicks 4) := runTicks_add 3 4 c
  rw [h1] at hsplit
  refine ⟨_, hsplit.trans h2, ?_, ?_⟩
  · show memWrite c.memory (STACK_BOTTOM + c.sp) c.accumulator
      (STACK_BOTTOM + wrap8 (wrap8 (c.sp + 255) + 1)) = c.accumulator
    rw [hw]
    unfold memWrite
    rw [if_pos rfl]
  · show wrap8 (wrap8 (c.sp + 255) + 1) = c.sp
    exact hw

set_option maxHeartbeats 1600000 in
/-- PHP;PLP round trip from a generic instruction boundary: SP is restored
and P comes back as `P | FLAG_BREAK` (PHP forces the B flag on the pushed
copy). -/
theorem php_plp_roundtrip (c : Cpu) (hq : c.current_inst = []) (hsp : c.sp < 256)
    (hop1 : c.memory c.pc = 0x08) (hop2 : c.memory (c.pc + 1) = 0x28)
    (hpc : c.pc + 2 ≤ 0xFFFF) (hdisj : c.pc + 1 ≠ STACK_BOTTOM + c.sp) :
    ∃ c', runTicks 7 c = some c' ∧ c'.status_p = c.status_p ||| FLAG_BREAK
      ∧ c'.sp = c.sp := by
  have hw : wrap8 (wrap8 (c.sp + 255) + 1) = c.sp := by
    unfold wrap8
    omega
  have h1 : runTicks 3 c = some { c with
      pc := c.pc + 1,
      memory := memWrite c.memory (STACK_BOTTOM + c.sp) (c.status_p ||| FLAG_BREAK),
      sp := wrap8 (c.sp + 255),
      current_inst := [] } := php_run c hq hop1 (by omega)
  have h2 := plp_run { c with
      pc := c.pc + 1,
      memory := memWrite c.memory (STACK_BOTTOM + c.sp) (c.status_p ||| FLAG_BREAK),
      sp := wrap8 (c.sp + 255),
      current_inst := ([] : List MicroOp) } rfl
    (by
      show memWrite c.memory (STACK_BOTTOM + c.sp) (c.status_p ||| FLAG_BREAK) (c.pc + 1) = 0x28
      unfold memWrite
      rw [if_neg hdisj]
      exact hop2)
    (by show c.pc + 1 + 1 ≤ 65535; omega)
  have hsplit : runTicks 7 c = (runTicks 3 c).bind (runTicks 4) := runTicks_add 3 4 c
  rw [h1] at hsplit
  refine ⟨_, hsplit.trans h2, ?_, ?_⟩
  · show memWrite c.memory (STACK_BOTTOM + c.sp) (c.status_p ||| FLAG_BREAK)
      (STACK_BOTTOM + wrap8 (wrap8 (c.sp + 255) + 1)) = c.status_p ||| FLAG_BREAK
    rw [hw]
    unfold memWrite
    rw [if_pos rfl]
  · show wrap8 (wrap8 (c.sp + 255) + 1) = c.sp
    exact hw

/-- C6 (amended): for every initial accumulator, stack pointer (< 256) and
status value, running `PHA;PLA` (program `48 68` at `$8000`) restores A
and SP, and running `PHP;PLP` (program `08 28`) restores SP but yields
`P' = P | FLAG_BREAK`: PHP pushes the status with the B flag forced set,
so P itself is preserved exactly when B was already set. -/
theorem c6_stack_roundtrip_amended (a sp p : Nat) (hsp : sp < 256) :
    (∃ c', runTicks 7 (stackProg 0x48 0x68 a sp p) = some c'
      ∧ c'.accumulator = a ∧ c'.sp = sp)
    ∧ (∃ d', runTicks 7 (stackProg 0x08 0x28 a sp p) = some d'
      ∧ d'.status_p = p ||| FLAG_BREAK ∧ d'.sp = sp) :=
  ⟨pha_pla_roundtrip (stackProg 0x48 0x68 a sp p) rfl hsp rfl rfl
      (by show (0x8000 : Nat) + 2 ≤ 0xFFFF; norm_num)
      (by show 0x8000 + 1 ≠ 0x100 + sp; omega),
   php_plp_roundtrip (stackProg 0x08 0x28 a sp p) rfl hsp rfl rfl
      (by show (0x8000 : Nat) + 2 ≤ 0xFFFF; norm_num)
      (by show 0x8000 + 1 ≠ 0x100 + sp; omega)⟩

/-- C6 witness: the amended round-trip theorem at A = `0x37`, SP = `0xFE`,
P = 5. -/
theorem c6_stack_roundtrip_amended_witness :
    (∃ c', runTicks 7 (stackProg 0x48 0x68 0x37 0xFE 5) = some c'
      ∧ c'.accumulator = 0x37 ∧ c'.sp = 0xFE)
    ∧ (∃ d', runTicks 7 (stackProg 0x08 0x28 0x37 0xFE 5) = some d'
      ∧ d'.status_p = 5 ||| FLAG_BREAK ∧ d'.sp = 0xFE) :=
  c6_stack_roundtrip_amended 0x37 0xFE 5 (by norm_num)

/-- Every addressing-mode skeleton has at most 7 micro-ops. -/
theorem dispatch_length (m : AddressingMode) (i : MicroOp) (t : InstType) :
    (dispatch_generic_instruction m i t).length ≤ 7 := by
  cases m <;> cases t <;> simp [dispatch_generic_instruction]

set_option maxHeartbeats 8000000 in
set_option maxRecDepth 8000 in
/-- Every decoded micro-op sequence has at most 7 entries. -/
theorem decode_length (s pc op : Nat) (seq : List MicroOp)
    (h : decode_opcode s pc op = some seq) : seq.length ≤ 7 := by
  unfold decode_opcode at h
  split at h <;>
    first
    | exact Option.noConfusion h
    | (injection h with h
       subst h
       first
       | exact dispatch_length ..
       | (simp only [List.length_cons, List.length_nil]; omega))

/-- The placeholder substitution pops one micro-op and pushes at most two,
so it grows the queue by at most one. -/
theorem push_micro_length (c : Cpu) (v : Option Nat) (c' : Cpu)
    (h : push_micro_from_placeholder c v = some c') :
    c'.current_inst.length ≤ c.current_inst.length + 1 := by
  unfold push_micro_from_placeholder at h
  split at h
  all_goals try split at h
  all_goals
    first
    | exact Option.noConfusion h
    | (injection h with h
       subst h
       simp_all
       try omega)

/-- Z/N updates leave the micro-op queue alone. -/
theorem set_flags_queue (c : Cpu) (v : Nat) :
    (set_flags_zero_neg c v).current_inst = c.current_inst := rfl

/-- Compares leave the micro-op queue alone. -/
theorem cpu_compare_queue (c : Cpu) (a b : Nat) :
    (Cpu.compare c a b).current_inst = c.current_inst := by
  unfold Cpu.compare set_flags_zero_neg
  simp only []
  repeat' split
  all_goals rfl

/-- ADC leaves the micro-op queue alone. -/
theorem awc_queue (c : Cpu) (v : Nat) :
    (awc c v).current_inst = c.current_inst := by
  unfold awc set_flags_zero_neg
  simp only []
  repeat' split
  all_goals rfl

/-- SBC (when it does not abort) leaves the micro-op queue alone. -/
theorem swc_queue (c : Cpu) (v : Nat) (c' : Cpu) (h : swc c v = some c') :
    c'.current_inst = c.current_inst := by
  unfold swc set_flags_zero_neg at h
  simp only [] at h
  repeat' split at h
  all_goals
    first
    | exact Option.noConfusion h
    | (injection h with h; subst h; rfl)

/-- The shift/rotate helpers leave the micro-op queue alone. -/
theorem asl_queue (c : Cpu) (v : Nat) :
    (asl c v).1.current_inst = c.current_inst := by
  unfold asl set_flags_zero_neg
  simp only []
  repeat' split
  all_goals rfl

theorem lsr_queue (c : Cpu) (v : Nat) :
    (lsr c v).1.current_inst = c.current_inst := by
  unfold lsr set_flags_zero_neg
  simp only []
  repeat' split
  all_goals rfl

theorem rol_queue (c : Cpu) (v : Nat) :
    (rol c v).1.current_inst = c.current_inst := by
  unfold rol set_flags_zero_neg
  simp only []
  repeat' split
  all_goals rfl

theorem ror_queue (c : Cpu) (v : Nat) :
    (ror c v).1.current_inst = c.current_inst := by
  unfold ror set_flags_zero_neg
  simp only []
  repeat' split
  all_goals rfl

/-- A branch schedules at most one `TakeBranch` at the queue back. -/
theorem schedule_branch_length (c : Cpu) (v cond off : Nat) :
    (schedule_branch c v cond off).current_inst.length ≤ c.current_inst.length + 1 := by
  unfold schedule_branch
  split
  · simp
  · simp

set_option maxHeartbeats 4000000 in
/-- Executing any single micro-op grows the queue by at most one entry. -/
theorem exec_length (c : Cpu) (op : MicroOp) (c' : Cpu)
    (h : execute_micro_op c op = some c') :
    c'.current_inst.length ≤ c.current_inst.length + 1 := by
  unfold execute_micro_op at h
  simp only [] at h
  repeat' split at h
  all_goals
    first
    | exact Option.noConfusion h
    | (have hq := push_micro_length _ _ _ h
       simp_all [mem_write]
       try omega)
    | (have hq := swc_queue _ _ _ h
       simp_all
       try omega)
    | (injection h with h
       subst h
       first
       | exact schedule_branch_length ..
       | simp [set_flags_queue, cpu_compare_queue, awc_queue, asl_queue, lsr_queue,
           rol_queue, ror_queue, mem_write])

/-- One cycle preserves the 8-entry queue bound. -/
theorem ecc_length (c c' : Cpu) (h8 : c.current_inst.length ≤ 8)
    (h : execute_current_cycle c = some c') : c'.current_inst.length ≤ 8 := by
  cases hq : c.current_inst with
  | nil =>
    rw [ecc_nil c hq] at h
    split at h
    · exact Option.noConfusion h
    · split at h
      · exact Option.noConfusion h
      next seq hseq =>
        injection h with h
        subst h
        show seq.length ≤ 8
        exact le_trans (decode_length _ _ _ _ hseq) (by omega)
  | cons op rest =>
    rw [ecc_cons c op rest hq] at h
    have hstep := exec_length _ _ _ h
    simp only [List.length_cons] at hstep
    rw [hq] at h8
    simp only [List.length_cons] at h8
    omega

/-- C8: in every state reachable from a reset CPU by any number of ticks,
the micro-op queue holds at most 8 entries (the longest decoded sequence
has 7, and any push-front during execution adds at most one to a queue
that has just been popped). -/
theorem c8_micro_op_queue_bound (c c0 : Cpu) (hreset : reset c = some c0)
    (n : Nat) (c' : Cpu) (hrun : runTicks n c0 = some c') :
    c'.current_inst.length ≤ 8 := by
  have hq : c0.current_inst = [] := by
    unfold reset at hreset
    split at hreset
    · exact Option.noConfusion hreset
    · injection hreset with hreset
      subst hreset
      rfl
  have inv : ∀ m (d d' : Cpu), d.current_inst.length ≤ 8 → runTicks m d = some d' →
      d'.current_inst.length ≤ 8 := by
    intro m
    induction m with
    | zero =>
      intro d d' hb hr
      injection hr with hr
      subst hr
      exact hb
    | succ k ih =>
      intro d d' hb hr
      cases he : execute_current_cycle d with
      | none => rw [runTicks, he] at hr; exact Option.noConfusion hr
      | some d1 =>
        rw [runTicks, he] at hr
        exact ih d1 d' (ecc_length d d1 hb he) hr
  exact inv n c0 c' (by rw [hq]; simp) hrun

/-- C8 witness: two ticks from a freshly reset CPU (all-zero memory, so the
first opcode is BRK) stay within the bound. -/
theorem c8_micro_op_queue_bound_witness :
    ∃ c0 c', reset cpu_new = some c0 ∧ runTicks 2 c0 = some c'
      ∧ c'.current_inst.length ≤ 8 := by
  refine ⟨_, _, rfl, rfl, ?_⟩
  exact c8_micro_op_queue_bound cpu_new _ rfl 2 _ rfl
